import Mathlib

/-!
Verification of the WebSocket event-relay core of the repository
(`src/viewmodel/websocket_handler.rs`, `src/event_bus/mod.rs`).

The Rust code is shallowly embedded: the per-iteration body of the
connection loop, the command executor `handle_function_call`, the state
transition logger `transition_state`, the bus-to-socket forwarder filter
and `EventBus::emit` become Lean functions.  External library calls
(serde JSON parsing, UTF-8 decoding, socket sends) are parameters of the
step function, so every theorem quantifies over their behaviour.
-/

namespace WsRelay

/-- A JSON value, as produced by `serde_json::json!` in the handler.
Numbers are restricted to integers; every literal occurring in the
embedded code is an integer. -/
inductive Json where
  | null : Json
  | bool : Bool → Json
  | num : Int → Json
  | str : String → Json
  | arr : List Json → Json
  | obj : List (String × Json) → Json

/-- First-match field lookup on a JSON object (as serde maps behave for
the keys used here, which are all distinct). -/
def Json.getField : Json → String → Option Json
  | .obj fields, k => fields.lookup k
  | _, _ => none

/-- `WebSocketEvent` (websocket_handler.rs lines 15-22): the wire
envelope exchanged in both directions. -/
structure WsEvent where
  id : String
  name : String
  payload : Json
  timestamp : Nat
  source : String

/-- `WebSocketError` (websocket_handler.rs lines 24-31): the error
envelope sent when inbound parsing fails. -/
structure WsError where
  id : String
  error_type : String
  message : String
  details : Option Json
  timestamp : Nat

/-- `ConnectionError` (websocket_handler.rs lines 58-74). -/
inductive ConnError where
  | TcpBindFailed : String → ConnError
  | TcpAcceptFailed : String → ConnError
  | TcpSetNodelayFailed : String → ConnError
  | HandshakeTimeout : ConnError
  | HandshakeFailed : String → ConnError
  | AuthenticationFailed : String → ConnError
  | InvalidMessage : String → ConnError
  | MessageParseError : String → ConnError
  | SerializationError : String → ConnError
  | SendError : String → ConnError
  | ReceiveError : String → ConnError
  | ProtocolError : String → ConnError
  | ChannelClosed : ConnError
  | IdleTimeout : ConnError
  | Unknown : String → ConnError
  deriving DecidableEq, Repr

/-- `ConnectionState` (websocket_handler.rs lines 35-54). -/
inductive ConnState where
  | Initialized | TcpConnecting | TcpConnected
  | HandshakeInitiated | HandshakeCompleted
  | Authenticating | Authenticated
  | Ready | Processing | Sending | Receiving
  | PingSent | PongReceived | Idle
  | Closing | Closed
  | Error : ConnError → ConnState
  | Terminated
  deriving DecidableEq, Repr

/-- `StateTransition` (websocket_handler.rs lines 100-105). -/
structure StateTransition where
  «from» : ConnState
  «to» : ConnState
  timestamp : Nat
  reason : Option String
  deriving DecidableEq, Repr

/-- `ConnectionStats` (websocket_handler.rs lines 109-118). -/
structure ConnectionStats where
  messages_sent : Nat := 0
  messages_received : Nat := 0
  bytes_sent : Nat := 0
  bytes_received : Nat := 0
  errors_count : Nat := 0
  reconnects : Nat := 0
  state_history : List StateTransition := []
  created_at : Nat := 0
  deriving DecidableEq, Repr

/-- `ConnectionStats::default()` (lines 120-133). -/
def ConnectionStats.default (now : Nat) : ConnectionStats :=
  { created_at := now }

/-- `WebSocketHandler::transition_state` (lines 172-184): replaces the
current state with `newState` and pushes a `StateTransition` record whose
`from` is the old state and whose `to` is the new one. -/
def transition_state (state : ConnState) (newState : ConnState)
    (stats : ConnectionStats) (now : Nat) (reason : Option String) :
    ConnState × ConnectionStats :=
  (newState,
   { stats with
      state_history :=
        stats.state_history ++
          [{ «from» := state, «to» := newState, timestamp := now, reason := reason }] })

/-! ### The command executor (`handle_function_call`, lines 674-803) -/

/-- The backing database handle: result of `db.get_all_users()` and
`db.get_db_stats()`, each a `Result` (`Ok` payload or error message). -/
structure Db where
  get_all_users : Except String (List Json)
  get_db_stats : Except String Json

/-- Outcome of `DATABASE.try_lock()` followed by the `Option` check on
the guard: the lock is busy, the slot holds no database, or a database
is available. -/
inductive DbEnv where
  | lockBusy : DbEnv
  | absent : DbEnv
  | available : Db → DbEnv

/-- An event handed to `EventBus::emit` via `Event::new(name, payload,
source)`; the fresh uuid and timestamp are environment-generated and not
modelled. -/
structure BusEvent where
  name : String
  payload : Json
  source : String

/-- `WebSocketHandler::handle_function_call` (lines 674-803).  Returns
the optional JSON reply together with the list of events the call itself
emits on the global bus (only `ui.ready` emits one). -/
def handle_function_call (name : String) (payload : Json) (env : DbEnv) :
    Option Json × List BusEvent :=
  if name = "get_users" then
    (match env with
     | .available db =>
        match db.get_all_users with
        | .ok users =>
            (some (.obj [("success", .bool true), ("data", .arr users)]), [])
        | .error e =>
            (some (.obj [("success", .bool true), ("data", .arr []),
                         ("error", .str e)]), [])
     | .absent =>
        (some (.obj [("success", .bool true), ("data", .arr []),
                     ("error", .str "Database not available")]), [])
     | .lockBusy =>
        (some (.obj [("success", .bool true), ("data", .arr []),
                     ("error", .str "Database busy")]), []))
  else if name = "get_db_stats" then
    (match env with
     | .available db =>
        match db.get_db_stats with
        | .ok stats =>
            (some (.obj [("success", .bool true), ("stats", stats)]), [])
        | .error e =>
            (some (.obj [("success", .bool true),
                         ("stats", .obj [("users", .num 0), ("tables", .arr [])]),
                         ("error", .str e)]), [])
     | .absent =>
        (some (.obj [("success", .bool true),
                     ("stats", .obj [("users", .num 0), ("tables", .arr [])]),
                     ("error", .str "Database not available")]), [])
     | .lockBusy =>
        (some (.obj [("success", .bool true),
                     ("stats", .obj [("users", .num 0), ("tables", .arr [])]),
                     ("error", .str "Database busy")]), []))
  else if name = "ui.ready" then
    (some (.obj [("success", .bool true),
                 ("message", .str "UI ready event processed, backend connected")]),
     [{ name := "backend.connected",
        payload := .obj [("message", .str "Backend connected and ready")],
        source := "backend" }])
  else if name = "window_state_change" ∨ name = "window.state.change" then
    (some (.obj [("success", .bool true),
                 ("message", .str "Window state change logged")]), [])
  else
    (some (.obj [("success", .bool false),
                 ("error", .str ("Unknown function: " ++ name)),
                 ("function", .str name)]), [])

/-- The function names carried by named match arms of
`handle_function_call` (every other name falls to the `_` arm). -/
def recognized (name : String) : Bool :=
  name == "get_users" || name == "get_db_stats" || name == "ui.ready" ||
    name == "window_state_change" || name == "window.state.change"

/-! ### The connection loop (`handle_connection`, lines 284-671) -/

/-- An inbound `tungstenite::Message`. -/
inductive Frame where
  | text : String → Frame
  | binary : List Nat → Frame
  | ping : List Nat → Frame
  | pong : List Nat → Frame
  | close : Frame
  | frameRaw : Nat → Frame
  deriving DecidableEq, Repr

/-- `Message::len()` (used for the receive byte counter). -/
def Frame.len : Frame → Nat
  | .text s => s.utf8ByteSize
  | .binary d => d.length
  | .ping d => d.length
  | .pong d => d.length
  | .close => 0
  | .frameRaw n => n

/-- A frame written to this connection's sink. -/
inductive OutMsg where
  | textEvent : WsEvent → OutMsg
  | textError : WsError → OutMsg
  | pong : List Nat → OutMsg
  | closeFrame : OutMsg

/-- The id of a WireError write, `none` for any other kind of write. -/
def errId : OutMsg → Option String
  | .textError er => some er.id
  | _ => none

/-- Whether a write carries a data payload (an event or error envelope),
as opposed to a protocol-level pong or close frame. -/
def OutMsg.isData : OutMsg → Bool
  | .textEvent _ => true
  | .textError _ => true
  | _ => false

/-- The resolved `tokio::select!` arm of one loop iteration (lines
292-633): the next inbound stream item (`Some(Ok)/Some(Err)/None`), the
next forwarded message from the private bus channel (`Some/None`), or
the idle-timer expiry. -/
inductive SelectArm where
  | inbound : Option (Except String Frame) → SelectArm
  | busRecv : Option OutMsg → SelectArm
  | idleFire : SelectArm

/-- External collaborators of one loop iteration: `serde_json::from_str`
for envelopes, `String::from_utf8`, the database slot, the outcome of
checked `sink.send` calls, the serialized length of a reply, the display
string of a failed send, and the two clocks (`SystemTime` ms epoch for
envelope timestamps, `Instant` for activity bookkeeping). -/
structure StepEnv where
  parse : String → Except String WsEvent
  utf8 : List Nat → Except String String
  db : DbEnv
  sinkOk : Bool
  encLen : WsEvent → Nat
  sendErrMsg : String
  nowMs : Nat
  mono : Nat

/-- The loop-carried state: the connection state, the stats record and
`last_activity`. -/
structure LoopState where
  state : ConnState
  stats : ConnectionStats
  lastActivity : Nat

/-- Result of one loop iteration: the new loop state, the frames written
to the sink, the events emitted on the bus, and whether the loop breaks. -/
structure StepOut where
  state : ConnState
  stats : ConnectionStats
  lastActivity : Nat
  writes : List OutMsg
  emits : List BusEvent
  brk : Bool

/-- `Duration::from_secs(300)` (line 285). -/
def idle_timeout_secs : Nat := 300

/-- `matches!(state, Error(_))`. -/
def ConnState.isErr : ConnState → Bool
  | .Error _ => true
  | _ => false

/-- The post-arm break check (lines 636-640): the combined condition
breaks exactly for `Closing`, `Closed` and `Terminated` (an `Error`
state passes the outer `matches!` but fails the inner one). -/
def postBreak : ConnState → Bool
  | .Closing => true
  | .Closed => true
  | .Terminated => true
  | _ => false

/-- Handling of a successfully parsed envelope — shared verbatim between
the text branch (lines 308-363) and the binary branch (lines 406-461),
which differ only in the two transition reason strings.  Serialization
of the reply (`serde_json::to_string`) cannot fail on these values, so
only its `Ok` branch is modelled.  Returns (state, stats, writes, bus
emissions, break?). -/
def processEnvelope (e : StepEnv) (state : ConnState) (stats : ConnectionStats)
    (ev : WsEvent) (sendingReason readyReason : String) :
    ConnState × ConnectionStats × List OutMsg × List BusEvent × Bool :=
  let r := handle_function_call ev.name ev.payload e.db
  match r.1 with
  | some resp =>
      let (s1, st1) := transition_state state .Sending stats e.mono (some sendingReason)
      let respEvent : WsEvent :=
        { id := ev.id, name := ev.name, payload := resp,
          timestamp := e.nowMs, source := "backend" }
      let st2 := { st1 with bytes_sent := st1.bytes_sent + e.encLen respEvent }
      if e.sinkOk then
        let st3 := { st2 with messages_sent := st2.messages_sent + 1 }
        let (s2, st4) := transition_state s1 .Ready st3 e.mono (some readyReason)
        (s2, st4, [.textEvent respEvent],
         r.2 ++ [{ name := ev.name, payload := ev.payload, source := ev.source }],
         false)
      else
        let st3 := { st2 with errors_count := st2.errors_count + 1 }
        let (s2, st4) :=
          transition_state s1 (.Error (.SendError e.sendErrMsg)) st3 e.mono
            (some e.sendErrMsg)
        (s2, st4, [.textEvent respEvent], r.2, true)
  | none =>
      (state, stats, [],
       [{ name := ev.name, payload := ev.payload, source := ev.source }], false)

/-- The `Message::Text` branch (lines 303-395).  The send of a WireError
reply is fire-and-forget in the source (a failure is only logged), so
its outcome does not appear here. -/
def handleText (e : StepEnv) (state : ConnState) (stats : ConnectionStats)
    (t : String) :
    ConnState × ConnectionStats × List OutMsg × List BusEvent × Bool :=
  let (s1, st1) :=
    transition_state state .Processing stats e.mono (some "Processing text message")
  match e.parse t with
  | .ok ev => processEnvelope e s1 st1 ev "Sending response" "Response sent, ready"
  | .error perr =>
      let st2 := { st1 with errors_count := st1.errors_count + 1 }
      let err : WsError :=
        { id := "parse_error", error_type := "JSON_PARSE_ERROR",
          message := "Invalid JSON format",
          details := some (.obj [("raw_message", .str (t.take 200)),
                                 ("parse_error", .str perr)]),
          timestamp := e.nowMs }
      (s1, st2, [.textError err], [], false)

/-- The `Message::Binary` branch (lines 396-522); note the source adds
`data.len()` to `bytes_received` a second time here (line 398). -/
def handleBinary (e : StepEnv) (state : ConnState) (stats : ConnectionStats)
    (data : List Nat) :
    ConnState × ConnectionStats × List OutMsg × List BusEvent × Bool :=
  let st0 := { stats with bytes_received := stats.bytes_received + data.length }
  let (s1, st1) :=
    transition_state state .Processing st0 e.mono (some "Processing binary message")
  match e.utf8 data with
  | .ok t =>
      match e.parse t with
      | .ok ev =>
          processEnvelope e s1 st1 ev "Sending binary response" "Binary response sent"
      | .error perr =>
          let st2 := { st1 with errors_count := st1.errors_count + 1 }
          let err : WsError :=
            { id := "binary_parse_error", error_type := "BINARY_PARSE_ERROR",
              message := "Invalid binary data format",
              details := some (.obj [("binary_length", .num (t.utf8ByteSize : Int)),
                                     ("parse_error", .str perr)]),
              timestamp := e.nowMs }
          (s1, st2, [.textError err], [], false)
  | .error uerr =>
      let st2 := { st1 with errors_count := st1.errors_count + 1 }
      let err : WsError :=
        { id := "utf8_error", error_type := "UTF8_DECODE_ERROR",
          message := "Binary data is not valid UTF-8",
          details := some (.obj [("decode_error", .str uerr)]),
          timestamp := e.nowMs }
      (s1, st2, [.textError err], [], false)

/-- The `Message::Ping` branch (lines 523-541). -/
def handlePing (e : StepEnv) (state : ConnState) (stats : ConnectionStats)
    (data : List Nat) :
    ConnState × ConnectionStats × List OutMsg × List BusEvent × Bool :=
  let (s1, st1) :=
    transition_state state .PingSent stats e.mono (some "Received ping")
  let (s2, st2) := transition_state s1 .Sending st1 e.mono (some "Sending pong")
  if e.sinkOk then
    let st3 := { st2 with messages_sent := st2.messages_sent + 1 }
    let (s3, st4) := transition_state s2 .PongReceived st3 e.mono (some "Pong sent")
    let (s4, st5) := transition_state s3 .Ready st4 e.mono (some "Ready after pong")
    (s4, st5, [.pong data], [], false)
  else
    let st3 := { st2 with errors_count := st2.errors_count + 1 }
    let (s3, st4) :=
      transition_state s2 (.Error (.SendError e.sendErrMsg)) st3 e.mono
        (some e.sendErrMsg)
    (s3, st4, [.pong data], [], true)

/-- One iteration of the main processing loop (lines 288-641): the
leading transition to `Receiving`, the resolved select arm, and the
post-arm break check. -/
def step (e : StepEnv) (ls : LoopState) (arm : SelectArm) : StepOut :=
  let (s0, st0) :=
    transition_state ls.state .Receiving ls.stats e.mono (some "Waiting for message")
  let out : StepOut :=
    match arm with
    | .inbound m =>
        let la := e.mono
        match m with
        | some (.ok f) =>
            let st1 := { st0 with
              messages_received := st0.messages_received + 1,
              bytes_received := st0.bytes_received + f.len }
            match f with
            | .text t =>
                let (s, st, w, em, b) := handleText e s0 st1 t
                ⟨s, st, la, w, em, b⟩
            | .binary d =>
                let (s, st, w, em, b) := handleBinary e s0 st1 d
                ⟨s, st, la, w, em, b⟩
            | .ping d =>
                let (s, st, w, em, b) := handlePing e s0 st1 d
                ⟨s, st, la, w, em, b⟩
            | .pong _ =>
                let (s2, st2) :=
                  transition_state s0 .PongReceived st1 e.mono (some "Received pong")
                let (s3, st3) :=
                  transition_state s2 .Ready st2 e.mono (some "Ready after pong")
                ⟨s3, st3, la, [], [], false⟩
            | .close =>
                let (s2, st2) :=
                  transition_state s0 .Closing st1 e.mono (some "Close frame received")
                ⟨s2, st2, la, [], [], true⟩
            | .frameRaw _ =>
                let (s2, st2) :=
                  transition_state s0 .Processing st1 e.mono
                    (some "Processing raw frame")
                ⟨s2, st2, la, [], [], false⟩
        | some (.error msg) =>
            let st1 := { st0 with errors_count := st0.errors_count + 1 }
            let (s2, st2) :=
              transition_state s0 (.Error (.ProtocolError msg)) st1 e.mono (some msg)
            let err : WsError :=
              { id := "protocol_error", error_type := "PROTOCOL_ERROR",
                message := "WebSocket protocol error",
                details := some (.obj [("error", .str msg)]),
                timestamp := e.nowMs }
            ⟨s2, st2, la, [.textError err], [], true⟩
        | none =>
            let (s2, st2) :=
              transition_state s0 .Closed st0 e.mono (some "Stream ended")
            ⟨s2, st2, la, [], [], true⟩
    | .busRecv m =>
        match m with
        | some w =>
            let (s1, st1) :=
              transition_state s0 .Sending st0 e.mono (some "Forwarding event")
            let la := e.mono
            if e.sinkOk then
              let st2 := { st1 with messages_sent := st1.messages_sent + 1 }
              let (s2, st3) := transition_state s1 .Ready st2 e.mono (some "Event sent")
              ⟨s2, st3, la, [w], [], false⟩
            else
              let st2 := { st1 with errors_count := st1.errors_count + 1 }
              let (s2, st3) :=
                transition_state s1 (.Error (.SendError e.sendErrMsg)) st2 e.mono
                  (some e.sendErrMsg)
              ⟨s2, st3, la, [w], [], true⟩
        | none =>
            let (s1, st1) :=
              transition_state s0 (.Error .ChannelClosed) st0 e.mono
                (some "Event channel closed")
            ⟨s1, st1, ls.lastActivity, [], [], false⟩
    | .idleFire =>
        if idle_timeout_secs ≤ e.mono - ls.lastActivity then
          let st1 := { st0 with errors_count := st0.errors_count + 1 }
          let (s1, st2) := transition_state s0 .Closing st1 e.mono (some "Idle timeout")
          ⟨s1, st2, ls.lastActivity, [], [], true⟩
        else
          ⟨s0, st0, ls.lastActivity, [], [], false⟩
  { out with brk := out.brk || postBreak out.state }

/-- The epilogue after the loop exits (lines 643-671): a best-effort
close frame unless the state is an `Error`, then the final transition to
`Terminated` (from an `Error`) or `Closed` (from `Closing`).  Returns
the final state, the final stats, and the frames written. -/
def finalize (e : StepEnv) (state : ConnState) (stats : ConnectionStats) :
    ConnState × ConnectionStats × List OutMsg :=
  let writes : List OutMsg := if state.isErr then [] else [.closeFrame]
  if state.isErr then
    let (s, st) :=
      transition_state state .Terminated stats e.mono
        (some "Connection terminated due to error")
    (s, st, writes)
  else if state = .Closing then
    let (s, st) :=
      transition_state state .Closed stats e.mono
        (some "Connection closed gracefully")
    (s, st, writes)
  else
    (state, stats, writes)

/-! ### The bus-to-socket forwarder (lines 240-278) -/

/-- `Event` (event bus, `src/event_bus/mod.rs` lines 8-15). -/
structure Event where
  id : String
  name : String
  payload : Json
  timestamp : Nat
  source : String

/-- Body of the per-connection forwarder task (lines 244-277): an event
received on the private bus subscription is encoded and queued for this
connection exactly when its `source` differs from `"frontend"`;
otherwise it is dropped. -/
def forward_event (ev : Event) (nowMs : Nat) : Option OutMsg :=
  if ev.source ≠ "frontend" then
    some (.textEvent { id := ev.id, name := ev.name, payload := ev.payload,
                       timestamp := nowMs, source := ev.source })
  else
    none

/-! ### `EventBus::emit` (`src/event_bus/mod.rs` lines 60-78) -/

/-- A subscribed handler (`EventHandler`, line 32). -/
def Handler : Type := Event → Except String Unit

/-- The event bus state visible to `emit`: the subscriber map (topic →
handlers in registration order) and the number of live broadcast
receivers. -/
structure EventBus where
  subscribers : List (String × List Handler)
  receiverCount : Nat

/-- The handler loop inside `emit` (lines 63-69): every handler is
invoked in order; an `Err` is logged and the iteration continues.
Returns the invocation results in order plus the error log lines. -/
def runHandlers (hs : List Handler) (ev : Event) :
    List (Except String Unit) × List String :=
  match hs with
  | [] => ([], [])
  | h :: rest =>
      let r := h ev
      let rl := runHandlers rest ev
      (r :: rl.1,
       (match r with
        | .ok _ => []
        | .error e =>
            ["Error in event handler for " ++ ev.name ++ ": " ++ e]) ++ rl.2)

/-- What one call to `emit` did: its return value, the handler results
in invocation order, the handler error logs, and whether the broadcast
send found a receiver (its failure is only a debug log). -/
structure EmitResult where
  result : Except String Unit
  invoked : List (Except String Unit)
  handlerLogs : List String
  broadcastDelivered : Bool

/-- `EventBus::emit` (lines 60-78): dispatch to the handlers registered
for `event.name` in order, then a best-effort broadcast send; a send
error (no receivers) is logged and otherwise ignored, and the function
returns `Ok(())` unconditionally. -/
def EventBus.emit (bus : EventBus) (ev : Event) : EmitResult :=
  let handlers := (bus.subscribers.lookup ev.name).getD []
  let rl := runHandlers handlers ev
  { result := .ok (), invoked := rl.1, handlerLogs := rl.2,
    broadcastDelivered := decide (bus.receiverCount ≠ 0) }

/-! ### Derived notions used by the statements -/

/-- The loop state carried into the next iteration. -/
def StepOut.toLoopState (o : StepOut) : LoopState :=
  { state := o.state, stats := o.stats, lastActivity := o.lastActivity }

/-- The observables of one loop iteration compared by the refinement
claim: the frames written, the bus emissions, the break decision and the
resulting state. -/
def observables (o : StepOut) : List OutMsg × List BusEvent × Bool × ConnState :=
  (o.writes, o.emits, o.brk, o.state)

/-- The observables produced by handling one successfully parsed
envelope; both the text and the binary branch reduce to this. -/
def processedObservables (e : StepEnv) (ev : WsEvent) :
    List OutMsg × List BusEvent × Bool × ConnState :=
  let r := handle_function_call ev.name ev.payload e.db
  match r.1 with
  | some resp =>
      let respEvent : WsEvent :=
        { id := ev.id, name := ev.name, payload := resp,
          timestamp := e.nowMs, source := "backend" }
      if e.sinkOk then
        ([.textEvent respEvent],
         r.2 ++ [{ name := ev.name, payload := ev.payload, source := ev.source }],
         false, .Ready)
      else
        ([.textEvent respEvent], r.2, true, .Error (.SendError e.sendErrMsg))
  | none =>
      ([], [{ name := ev.name, payload := ev.payload, source := ev.source }],
       false, .Processing)

/-- The chaining invariant of the transition log: starting from `init`,
each entry's `from` equals the state reached so far, and `cur` is the
state reached at the end. -/
def chained : ConnState → List StateTransition → ConnState → Prop
  | s, [], cur => cur = s
  | s, t :: rest, cur => t.«from» = s ∧ chained t.«to» rest cur

/-! ### Helper lemmas -/

theorem handle_function_call_some (name : String) (p : Json) (env : DbEnv) :
    ∃ j, (handle_function_call name p env).1 = some j ∧
      j.getField "success" = some (.bool (recognized name)) := by
  unfold handle_function_call
  split_ifs with h1 h2 h3 h4
  · subst h1
    cases env with
    | lockBusy => exact ⟨_, rfl, rfl⟩
    | absent => exact ⟨_, rfl, rfl⟩
    | available db =>
        cases hdb : db.get_all_users with
        | ok users =>
            exact ⟨.obj [("success", .bool true), ("data", .arr users)],
                   by simp [hdb], rfl⟩
        | error msg =>
            exact ⟨.obj [("success", .bool true), ("data", .arr []),
                         ("error", .str msg)],
                   by simp [hdb], rfl⟩
  · subst h2
    cases env with
    | lockBusy => exact ⟨_, rfl, rfl⟩
    | absent => exact ⟨_, rfl, rfl⟩
    | available db =>
        cases hdb : db.get_db_stats with
        | ok stats =>
            exact ⟨.obj [("success", .bool true), ("stats", stats)],
                   by simp [hdb], rfl⟩
        | error msg =>
            exact ⟨.obj [("success", .bool true),
                         ("stats", .obj [("users", .num 0), ("tables", .arr [])]),
                         ("error", .str msg)],
                   by simp [hdb], rfl⟩
  · subst h3
    exact ⟨_, rfl, rfl⟩
  · rcases h4 with h | h <;> subst h <;> exact ⟨_, rfl, rfl⟩
  · have hr : recognized name = false := by
      push_neg at h4
      simp [recognized, h1, h2, h3, h4.1, h4.2]
    exact ⟨_, rfl, by rw [hr]; rfl⟩

theorem chained_append (init cur ns : ConnState) (h : List StateTransition)
    (n : Nat) (r : Option String) (hc : chained init h cur) :
    chained init
      (h ++ [{ «from» := cur, «to» := ns, timestamp := n, reason := r }]) ns := by
  induction h generalizing init with
  | nil =>
      simp only [chained] at hc
      subst hc
      simp [chained]
  | cons t rest ih =>
      simp only [chained, List.cons_append] at hc ⊢
      exact ⟨hc.1, ih _ hc.2⟩

theorem runHandlers_invoked (hs : List Handler) (ev : Event) :
    (runHandlers hs ev).1 = hs.map (fun h => h ev) := by
  induction hs with
  | nil => rfl
  | cons h rest ih => simp [runHandlers, ih]

theorem runHandlers_logs (hs : List Handler) (ev : Event) :
    (runHandlers hs ev).2 = hs.filterMap (fun h =>
      match h ev with
      | .ok _ => none
      | .error e =>
          some ("Error in event handler for " ++ ev.name ++ ": " ++ e)) := by
  induction hs with
  | nil => rfl
  | cons h rest ih =>
      simp only [runHandlers, List.filterMap_cons]
      cases h ev <;> simp [ih]

theorem step_text_parsed (e : StepEnv) (ls : LoopState) (t : String) (ev : WsEvent)
    (hp : e.parse t = .ok ev) :
    observables (step e ls (.inbound (some (.ok (.text t))))) =
      processedObservables e ev := by
  obtain ⟨j, hj, -⟩ := handle_function_call_some ev.name ev.payload e.db
  cases hs : e.sinkOk <;>
    simp [step, handleText, processEnvelope, processedObservables, observables,
          hp, hj, hs, transition_state, postBreak]

theorem step_binary_parsed (e : StepEnv) (ls : LoopState) (d : List Nat)
    (t : String) (ev : WsEvent) (hu : e.utf8 d = .ok t)
    (hp : e.parse t = .ok ev) :
    observables (step e ls (.inbound (some (.ok (.binary d))))) =
      processedObservables e ev := by
  obtain ⟨j, hj, -⟩ := handle_function_call_some ev.name ev.payload e.db
  cases hs : e.sinkOk <;>
    simp [step, handleBinary, processEnvelope, processedObservables, observables,
          hu, hp, hj, hs, transition_state, postBreak]

theorem step_text_ok_writes (e : StepEnv) (ls : LoopState) (t : String)
    (ev : WsEvent) (hp : e.parse t = .ok ev) (hs : e.sinkOk = true) :
    ∃ resp, (step e ls (.inbound (some (.ok (.text t))))).writes =
      [.textEvent { id := ev.id, name := ev.name, payload := resp,
                    timestamp := e.nowMs, source := "backend" }] := by
  obtain ⟨j, hj, -⟩ := handle_function_call_some ev.name ev.payload e.db
  refine ⟨j, ?_⟩
  have h := congrArg (fun q => q.1) (step_text_parsed e ls t ev hp)
  simpa [observables, processedObservables, hj, hs] using h

theorem step_text_parse_error (e : StepEnv) (ls : LoopState) (t msg : String)
    (hp : e.parse t = .error msg) :
    (step e ls (.inbound (some (.ok (.text t))))).writes =
      [.textError { id := "parse_error", error_type := "JSON_PARSE_ERROR",
                    message := "Invalid JSON format",
                    details := some (.obj [("raw_message", .str (t.take 200)),
                                           ("parse_error", .str msg)]),
                    timestamp := e.nowMs }] ∧
    (step e ls (.inbound (some (.ok (.text t))))).brk = false ∧
    (step e ls (.inbound (some (.ok (.text t))))).state = .Processing := by
  refine ⟨?_, ?_, ?_⟩ <;>
    simp [step, handleText, hp, transition_state, postBreak]

theorem step_binary_parse_error (e : StepEnv) (ls : LoopState) (d : List Nat)
    (t msg : String) (hu : e.utf8 d = .ok t) (hp : e.parse t = .error msg) :
    (step e ls (.inbound (some (.ok (.binary d))))).writes =
      [.textError { id := "binary_parse_error", error_type := "BINARY_PARSE_ERROR",
                    message := "Invalid binary data format",
                    details := some (.obj [("binary_length", .num (t.utf8ByteSize : Int)),
                                           ("parse_error", .str msg)]),
                    timestamp := e.nowMs }] ∧
    (step e ls (.inbound (some (.ok (.binary d))))).brk = false ∧
    (step e ls (.inbound (some (.ok (.binary d))))).state = .Processing := by
  refine ⟨?_, ?_, ?_⟩ <;>
    simp [step, handleBinary, hu, hp, transition_state, postBreak]

theorem step_binary_utf8_error (e : StepEnv) (ls : LoopState) (d : List Nat)
    (msg : String) (hu : e.utf8 d = .error msg) :
    (step e ls (.inbound (some (.ok (.binary d))))).writes =
      [.textError { id := "utf8_error", error_type := "UTF8_DECODE_ERROR",
                    message := "Binary data is not valid UTF-8",
                    details := some (.obj [("decode_error", .str msg)]),
                    timestamp := e.nowMs }] ∧
    (step e ls (.inbound (some (.ok (.binary d))))).brk = false ∧
    (step e ls (.inbound (some (.ok (.binary d))))).state = .Processing := by
  refine ⟨?_, ?_, ?_⟩ <;>
    simp [step, handleBinary, hu, transition_state, postBreak]

/-! ### Concrete fixtures for witnesses and counterexamples -/

/-- A concrete well-formed inbound envelope. -/
def wsEvW : WsEvent :=
  { id := "42", name := "get_users", payload := Json.null,
    timestamp := 0, source := "frontend" }

/-- A concrete step environment: the parser accepts exactly the string
"req" (yielding `wsEvW`), the UTF-8 decoder accepts the byte sequences
of "n" and "req", the database lock is busy, and sends succeed. -/
def envW : StepEnv :=
  { parse := fun s => if s = "req" then .ok wsEvW else .error "expected value",
    utf8 := fun d =>
      if d = [110] then .ok "n"
      else if d = [114, 101, 113] then .ok "req"
      else .error "invalid utf-8",
    db := .lockBusy,
    sinkOk := true,
    encLen := fun _ => 0,
    sendErrMsg := "send failed",
    nowMs := 1000,
    mono := 400 }

/-- A concrete loop state in the steady state. -/
def lsW : LoopState :=
  { state := .Ready, stats := ConnectionStats.default 0, lastActivity := 50 }

/-- A concrete event bus with no subscribers and no receivers. -/
def busW : EventBus := { subscribers := [], receiverCount := 0 }

/-- A concrete bus event. -/
def evBusW : Event :=
  { id := "e1", name := "topic", payload := Json.null,
    timestamp := 0, source := "backend" }

/-! ### Claims -/

/-- C1: for a recognized function name, a well-formed inbound envelope
causes exactly one reply envelope to be written on the connection, and
the reply's id equals the inbound envelope's id. -/
theorem C1_recognized_one_reply_same_id (e : StepEnv) (ls : LoopState)
    (t : String) (ev : WsEvent) (hp : e.parse t = .ok ev)
    (hr : recognized ev.name = true) (hs : e.sinkOk = true) :
    ∃ resp, (step e ls (.inbound (some (.ok (.text t))))).writes =
      [.textEvent { id := ev.id, name := ev.name, payload := resp,
                    timestamp := e.nowMs, source := "backend" }] :=
  step_text_ok_writes e ls t ev hp hs

/-- Witness for C1: the concrete request "req" (name "get_users", id
"42") gets exactly one reply with id "42". -/
theorem C1_witness :
    recognized "get_users" = true ∧
    ∃ resp, (step envW lsW (.inbound (some (.ok (.text "req"))))).writes =
      [.textEvent { id := "42", name := "get_users", payload := resp,
                    timestamp := 1000, source := "backend" }] := by
  refine ⟨rfl, ?_⟩
  have h := C1_recognized_one_reply_same_id envW lsW "req" wsEvW rfl rfl rfl
  simpa [wsEvW, envW] using h

/-- C2 counterexample: after the malformed text frame "not json" the
WireError is written and the loop continues, but the connection's
recorded state is `Processing`, not `Ready`. -/
theorem C2_counterexample :
    (step envW lsW (.inbound (some (.ok (.text "not json"))))).writes.map errId =
        [some "parse_error"] ∧
    (step envW lsW (.inbound (some (.ok (.text "not json"))))).brk = false ∧
    (step envW lsW (.inbound (some (.ok (.text "not json"))))).state =
        ConnState.Processing ∧
    ConnState.Processing ≠ ConnState.Ready :=
  ⟨rfl, rfl, rfl, by decide⟩

/-- C2 (amended): a malformed text frame yields exactly one WireError
reply and does not terminate the processing loop (the connection stays
open, though in state `Processing` rather than `Ready`), and a
subsequent well-formed message on the same connection is processed
normally — one reply reusing that message's id. -/
theorem C2_malformed_then_recover (e : StepEnv) (ls : LoopState) (t msg : String)
    (hp : e.parse t = .error msg) :
    (step e ls (.inbound (some (.ok (.text t))))).writes.map errId =
        [some "parse_error"] ∧
    (step e ls (.inbound (some (.ok (.text t))))).brk = false ∧
    (∀ t2 ev, e.parse t2 = .ok ev → e.sinkOk = true →
      ∃ resp,
        (step e (step e ls (.inbound (some (.ok (.text t))))).toLoopState
            (.inbound (some (.ok (.text t2))))).writes =
          [.textEvent { id := ev.id, name := ev.name, payload := resp,
                        timestamp := e.nowMs, source := "backend" }]) := by
  obtain ⟨hw, hb, -⟩ := step_text_parse_error e ls t msg hp
  refine ⟨by rw [hw]; rfl, hb, ?_⟩
  intro t2 ev hp2 hs
  exact step_text_ok_writes e _ t2 ev hp2 hs

/-- Witness for C2 (amended): malformed "nope", then the well-formed
"req" succeeds on the same connection. -/
theorem C2_witness :
    (step envW lsW (.inbound (some (.ok (.text "nope"))))).writes.map errId =
        [some "parse_error"] ∧
    (step envW lsW (.inbound (some (.ok (.text "nope"))))).brk = false ∧
    ∃ resp,
      (step envW (step envW lsW (.inbound (some (.ok (.text "nope"))))).toLoopState
          (.inbound (some (.ok (.text "req"))))).writes =
        [.textEvent { id := "42", name := "get_users", payload := resp,
                      timestamp := 1000, source := "backend" }] := by
  obtain ⟨h1, h2, h3⟩ :=
    C2_malformed_then_recover envW lsW "nope" "expected value" rfl
  refine ⟨h1, h2, ?_⟩
  simpa [wsEvW, envW] using h3 "req" wsEvW rfl rfl

/-- C3: the forwarder never relays an event whose source equals
"frontend" to the connection's outbound stream, and relays exactly the
events whose source differs. -/
theorem C3_loop_prevention (ev : Event) (now : Nat) :
    (ev.source = "frontend" → forward_event ev now = none) ∧
    (ev.source ≠ "frontend" →
      forward_event ev now =
        some (.textEvent { id := ev.id, name := ev.name, payload := ev.payload,
                           timestamp := now, source := ev.source })) := by
  constructor <;> intro h <;> simp [forward_event, h]

/-- Witness for C3: a concrete frontend-sourced event is dropped. -/
theorem C3_witness :
    forward_event { id := "i", name := "n", payload := Json.null,
                    timestamp := 0, source := "frontend" } 3 = none :=
  (C3_loop_prevention _ 3).1 rfl

/-- C4 counterexample: the byte sequence [110] is valid UTF-8 (decoding
to "n"), but handling it as a binary frame writes a WireError with id
"binary_parse_error" while handling the decoded string as a text frame
writes one with id "parse_error" — the observable replies differ, so the
branches are not equivalent. -/
theorem C4_counterexample :
    (step envW lsW (.inbound (some (.ok (.binary [110]))))).writes.map errId =
        [some "binary_parse_error"] ∧
    (step envW lsW (.inbound (some (.ok (.text "n"))))).writes.map errId =
        [some "parse_error"] ∧
    (some "binary_parse_error" : Option String) ≠ some "parse_error" :=
  ⟨rfl, rfl, by decide⟩

/-- C4 (amended): for a valid-UTF-8 binary frame whose decoded string
parses as an envelope, the binary branch produces exactly the same
observables (writes, bus emissions, break decision, resulting state) as
the text branch on the decoded string; when the decoded string does not
parse, both branches write exactly one WireError and continue, but the
error envelopes differ ("binary_parse_error" vs "parse_error"). -/
theorem C4_binary_refines_text (e : StepEnv) (ls : LoopState) (d : List Nat)
    (t : String) (hu : e.utf8 d = .ok t) :
    (∀ ev, e.parse t = .ok ev →
      observables (step e ls (.inbound (some (.ok (.binary d))))) =
        observables (step e ls (.inbound (some (.ok (.text t)))))) ∧
    (∀ msg, e.parse t = .error msg →
      (step e ls (.inbound (some (.ok (.binary d))))).writes.map errId =
          [some "binary_parse_error"] ∧
      (step e ls (.inbound (some (.ok (.text t))))).writes.map errId =
          [some "parse_error"] ∧
      (step e ls (.inbound (some (.ok (.binary d))))).brk = false ∧
      (step e ls (.inbound (some (.ok (.text t))))).brk = false) := by
  constructor
  · intro ev hp
    rw [step_binary_parsed e ls d t ev hu hp, step_text_parsed e ls t ev hp]
  · intro msg hp
    obtain ⟨hbw, hbb, -⟩ := step_binary_parse_error e ls d t msg hu hp
    obtain ⟨htw, htb, -⟩ := step_text_parse_error e ls t msg hp
    exact ⟨by rw [hbw]; rfl, by rw [htw]; rfl, hbb, htb⟩

/-- Witness for C4 (amended): the UTF-8 bytes of "req" handled as a
binary frame behave exactly like the text frame "req". -/
theorem C4_witness :
    observables (step envW lsW (.inbound (some (.ok (.binary [114, 101, 113]))))) =
      observables (step envW lsW (.inbound (some (.ok (.text "req"))))) :=
  (C4_binary_refines_text envW lsW [114, 101, 113] "req" rfl).1 wsEvW rfl

/-- C5 counterexample: with the database lock unavailable, the reply to
"get_users" carries success:true (with empty data and an error string),
not the success:false the claim requires. -/
theorem C5_counterexample :
    (handle_function_call "get_users" Json.null DbEnv.lockBusy).1 =
      some (.obj [("success", .bool true), ("data", .arr []),
                  ("error", .str "Database busy")]) ∧
    Json.bool true ≠ Json.bool false :=
  ⟨rfl, by simp⟩

/-- C5 (amended): when the backing store is unavailable (database absent
or lock busy), the reply to "get_users" / "get_db_stats" is a normal
response envelope of the success shape with empty collections and an
error string — but it carries success:true, not success:false. -/
theorem C5_unavailable_soft_shape (env : DbEnv) (p : Json)
    (h : env = .lockBusy ∨ env = .absent) :
    (∃ j, (handle_function_call "get_users" p env).1 = some j ∧
      j.getField "success" = some (.bool true) ∧
      j.getField "data" = some (.arr []) ∧
      (j.getField "error").isSome = true) ∧
    (∃ j, (handle_function_call "get_db_stats" p env).1 = some j ∧
      j.getField "success" = some (.bool true) ∧
      j.getField "stats" = some (.obj [("users", .num 0), ("tables", .arr [])]) ∧
      (j.getField "error").isSome = true) := by
  rcases h with h | h <;> subst h <;>
    exact ⟨⟨_, rfl, rfl, rfl, rfl⟩, ⟨_, rfl, rfl, rfl, rfl⟩⟩

/-- Witness for C5 (amended) at the busy lock. -/
theorem C5_witness :
    ∃ j, (handle_function_call "get_users" Json.null DbEnv.lockBusy).1 = some j ∧
      j.getField "success" = some (.bool true) ∧
      j.getField "data" = some (.arr []) ∧
      (j.getField "error").isSome = true :=
  (C5_unavailable_soft_shape DbEnv.lockBusy Json.null (Or.inl rfl)).1

/-- C6 counterexample: the unrecognized name "no_such_fn" does not make
the executor return None — it returns Some for every name. -/
theorem C6_counterexample :
    recognized "no_such_fn" = false ∧
    (handle_function_call "no_such_fn" Json.null DbEnv.lockBusy).1.isSome = true :=
  ⟨rfl, rfl⟩

/-- C6 (amended): the command executor returns Some(json) for every
(name, payload) input — including unrecognized names, which never yield
None — and the json always contains a boolean success field, true
exactly for the recognized names. -/
theorem C6_always_some_with_success (name : String) (p : Json) (env : DbEnv) :
    ∃ j, (handle_function_call name p env).1 = some j ∧
      j.getField "success" = some (.bool (recognized name)) :=
  handle_function_call_some name p env

/-- C7: emit invokes every handler subscribed to the event's name in
registration order — a failing handler is logged and the remaining
handlers still run — and returns Ok unconditionally; with no subscribers
for the name and no broadcast receivers it invokes nothing and the
failed broadcast send is a silent no-op. -/
theorem C7_emit_dispatch (bus : EventBus) (ev : Event) :
    (bus.emit ev).result = .ok () ∧
    (bus.emit ev).invoked =
      ((bus.subscribers.lookup ev.name).getD []).map (fun h => h ev) ∧
    (bus.emit ev).handlerLogs =
      ((bus.subscribers.lookup ev.name).getD []).filterMap (fun h =>
        match h ev with
        | .ok _ => none
        | .error e =>
            some ("Error in event handler for " ++ ev.name ++ ": " ++ e)) ∧
    (bus.subscribers.lookup ev.name = none → bus.receiverCount = 0 →
      (bus.emit ev).invoked = [] ∧ (bus.emit ev).broadcastDelivered = false) := by
  refine ⟨rfl, runHandlers_invoked _ ev, runHandlers_logs _ ev, ?_⟩
  intro hl hr
  constructor
  · simp [EventBus.emit, hl, runHandlers]
  · simp [EventBus.emit, hr]

/-- Witness for C7: the empty bus with zero receivers — emit returns Ok,
invokes nothing, and the undelivered broadcast is a no-op. -/
theorem C7_witness :
    (busW.emit evBusW).result = .ok () ∧ (busW.emit evBusW).invoked = [] ∧
    (busW.emit evBusW).broadcastDelivered = false := by
  obtain ⟨h1, -, -, h4⟩ := C7_emit_dispatch busW evBusW
  obtain ⟨h2, h3⟩ := h4 rfl rfl
  exact ⟨h1, h2, h3⟩

/-- C8: if the idle timer fires after at least the configured
300-second window with no intervening activity, the step transitions to
Closing, ends the loop and writes nothing, and the epilogue records
Closed and attempts no data write (only the best-effort close frame). -/
theorem C8_idle_timeout_closes (e : StepEnv) (ls : LoopState)
    (h : idle_timeout_secs ≤ e.mono - ls.lastActivity) :
    idle_timeout_secs = 300 ∧
    (step e ls .idleFire).state = .Closing ∧
    (step e ls .idleFire).brk = true ∧
    (step e ls .idleFire).writes = [] ∧
    (finalize e (step e ls .idleFire).state (step e ls .idleFire).stats).1 =
      .Closed ∧
    ∀ m ∈ (finalize e (step e ls .idleFire).state
        (step e ls .idleFire).stats).2.2, m.isData = false := by
  have hstate : (step e ls .idleFire).state = ConnState.Closing := by
    simp [step, h, transition_state, postBreak]
  refine ⟨rfl, hstate, ?_, ?_, ?_, ?_⟩
  · simp [step, h, transition_state, postBreak]
  · simp [step, h, transition_state, postBreak]
  · rw [hstate]; rfl
  · rw [hstate]
    intro m hm
    simp [finalize, ConnState.isErr, transition_state] at hm
    subst hm
    rfl

/-- Witness for C8: with last activity at 50 and the timer firing at
monotonic time 400 (350 ≥ 300 idle), the connection closes. -/
theorem C8_witness :
    (step envW lsW .idleFire).state = ConnState.Closing ∧
    (step envW lsW .idleFire).brk = true ∧
    (finalize envW (step envW lsW .idleFire).state
        (step envW lsW .idleFire).stats).1 = ConnState.Closed := by
  obtain ⟨-, h1, h2, -, h3, -⟩ := C8_idle_timeout_closes envW lsW (by decide)
  exact ⟨h1, h2, h3⟩

/-- C9: transition_state only appends to the transition log (the old
history is preserved as a prefix and exactly one record is added), the
new record's from field is the state immediately before and its to field
the new current state, and the chaining invariant of the whole log is
preserved. -/
theorem C9_transition_log (state newState : ConnState) (stats : ConnectionStats)
    (now : Nat) (reason : Option String) (init : ConnState)
    (h : chained init stats.state_history state) :
    (transition_state state newState stats now reason).2.state_history =
      stats.state_history ++
        [{ «from» := state, «to» := newState, timestamp := now, reason := reason }] ∧
    (transition_state state newState stats now reason).1 = newState ∧
    chained init (transition_state state newState stats now reason).2.state_history
      (transition_state state newState stats now reason).1 :=
  ⟨rfl, rfl, chained_append init state newState stats.state_history now reason h⟩

/-- Witness for C9: the first transition of a fresh connection. -/
theorem C9_witness :
    (transition_state ConnState.Initialized ConnState.TcpConnecting
        (ConnectionStats.default 0) 7 (some "TCP connection started")).2.state_history =
      [{ «from» := ConnState.Initialized, «to» := ConnState.TcpConnecting,
         timestamp := 7, reason := some "TCP connection started" }] ∧
    chained ConnState.Initialized
      (transition_state ConnState.Initialized ConnState.TcpConnecting
          (ConnectionStats.default 0) 7 (some "TCP connection started")).2.state_history
      ConnState.TcpConnecting := by
  obtain ⟨h1, h2, h3⟩ :=
    C9_transition_log ConnState.Initialized ConnState.TcpConnecting
      (ConnectionStats.default 0) 7 (some "TCP connection started")
      ConnState.Initialized rfl
  exact ⟨by simpa using h1, h3⟩

/-- C10: every WireError written for a malformed frame carries a fixed
literal id — "parse_error" for unparsable text, "binary_parse_error" for
unparsable UTF-8 binary, "utf8_error" for non-UTF-8 binary — for every
input and environment, so it is never the id of any inbound envelope. -/
theorem C10_fixed_error_ids (e : StepEnv) (ls : LoopState) :
    (∀ t msg, e.parse t = .error msg →
      (step e ls (.inbound (some (.ok (.text t))))).writes.map errId =
        [some "parse_error"]) ∧
    (∀ d t msg, e.utf8 d = .ok t → e.parse t = .error msg →
      (step e ls (.inbound (some (.ok (.binary d))))).writes.map errId =
        [some "binary_parse_error"]) ∧
    (∀ d msg, e.utf8 d = .error msg →
      (step e ls (.inbound (some (.ok (.binary d))))).writes.map errId =
        [some "utf8_error"]) := by
  refine ⟨?_, ?_, ?_⟩
  · intro t msg hp
    obtain ⟨hw, -, -⟩ := step_text_parse_error e ls t msg hp
    rw [hw]; rfl
  · intro d t msg hu hp
    obtain ⟨hw, -, -⟩ := step_binary_parse_error e ls d t msg hu hp
    rw [hw]; rfl
  · intro d msg hu
    obtain ⟨hw, -, -⟩ := step_binary_utf8_error e ls d msg hu
    rw [hw]; rfl

/-- Witness for C10: the non-UTF-8 byte sequence [255]. -/
theorem C10_witness :
    (step envW lsW (.inbound (some (.ok (.binary [255]))))).writes.map errId =
      [some "utf8_error"] :=
  (C10_fixed_error_ids envW lsW).2.2 [255] "invalid utf-8" rfl

end WsRelay
